import Mathlib

/-!
Verification development for the `collect_user_metadata` pipeline
(`src/collect_user_metadata.py`): seed loading, extraction invocation,
record normalization and the run orchestrator.

Modelling conventions:
- Python JSON values (the output of `json.loads`) are modelled by the
  inductive `Json` below.  Numeric payload fields are modelled as integers;
  floating-point payloads are outside the scope of this embedding.
- Python string helpers (`str.strip`, `str.lower`, `str.splitlines`, `int(...)`)
  are modelled on ASCII text by the `py...` functions below, translated from
  their documented CPython behaviour on the character ranges the pipeline uses.
- The external `yt-dlp` process is modelled as an oracle value `ProcResult`
  describing how one subprocess invocation ended; `run_ytdlp_json` maps it to
  the `YtDlpResult` record exactly as the Python function classifies outcomes.
- Wall-clock time (`now_iso()`) is modelled as an ambient string parameter.
-/

/-- JSON values as produced by `json.loads` (floats omitted, see header). -/
inductive Json where
  | null : Json
  | bool : Bool → Json
  | int : Int → Json
  | str : String → Json
  | arr : List Json → Json
  | obj : List (String × Json) → Json

/-- Python truthiness (`bool(x)`) for JSON values. -/
def jTruthy : Json → Bool
  | .null => false
  | .bool b => b
  | .int n => n != 0
  | .str s => s != ""
  | .arr l => !l.isEmpty
  | .obj f => !f.isEmpty

/-- Python `a or b` on JSON values: `a` when truthy, else `b`. -/
def pyOr (a b : Json) : Json :=
  if jTruthy a then a else b

/-- Characters stripped by Python `str.strip()` (ASCII whitespace). -/
def isPySpace (c : Char) : Bool :=
  c = ' ' || c = '\t' || c = '\n' || c = '\r' || c = '\x0b' || c = '\x0c'

/-- Python `str.strip()` on ASCII text. -/
def pyStrip (s : String) : String :=
  String.mk (((s.data.dropWhile isPySpace).reverse.dropWhile isPySpace).reverse)

/-- Python `str.lower()` for one ASCII character. -/
def pyLowerChar (c : Char) : Char :=
  if 'A' ≤ c ∧ c ≤ 'Z' then Char.ofNat (c.toNat + 32) else c

/-- Python `str.lower()` on ASCII text. -/
def pyLower (s : String) : String :=
  String.mk (s.data.map pyLowerChar)

mutual
/-- Python `repr()` of a JSON value (string quoting simplified: embedded
quotes are not escaped; the pipeline never stringifies containers whose
strings contain quotes). -/
def pyRepr : Json → String
  | .null => "None"
  | .bool true => "True"
  | .bool false => "False"
  | .int n => toString n
  | .str s => "'" ++ s ++ "'"
  | .arr l => "[" ++ String.intercalate ", " (pyReprList l) ++ "]"
  | .obj f => "\x7b" ++ String.intercalate ", " (pyReprFields f) ++ "\x7d"

def pyReprList : List Json → List String
  | [] => []
  | j :: rest => pyRepr j :: pyReprList rest

def pyReprFields : List (String × Json) → List String
  | [] => []
  | (k, v) :: rest => ("'" ++ k ++ "': " ++ pyRepr v) :: pyReprFields rest
end

/-- Python `str()` of a JSON value. -/
def pyStr : Json → String
  | .null => "None"
  | .bool true => "True"
  | .bool false => "False"
  | .int n => toString n
  | .str s => s
  | .arr l => "[" ++ String.intercalate ", " (pyReprList l) ++ "]"
  | .obj f => "\x7b" ++ String.intercalate ", " (pyReprFields f) ++ "\x7d"

/-- Digits of a Python integer literal after the first: digits with single
underscores allowed between digits. -/
def pyDigitsRest : List Char → Bool
  | [] => true
  | '_' :: c :: rest => c.isDigit && pyDigitsRest rest
  | '_' :: [] => false
  | c :: rest => c.isDigit && pyDigitsRest rest

/-- Numeric value of a digit run, skipping underscores. -/
def pyDigitsVal (cs : List Char) : Nat :=
  cs.foldl (fun acc c => if c = '_' then acc else acc * 10 + (c.toNat - '0'.toNat)) 0

/-- Python `int(s)` for a string: strips whitespace, optional sign, decimal
digits (underscores between digits allowed); `none` when the parse fails. -/
def pyParseInt (s : String) : Option Int :=
  let t := pyStrip s
  let core : Bool × List Char :=
    match t.data with
    | '-' :: rest => (true, rest)
    | '+' :: rest => (false, rest)
    | cs => (false, cs)
  match core.2 with
  | [] => none
  | c :: rest =>
    if c.isDigit && pyDigitsRest rest then
      let v : Int := Int.ofNat (pyDigitsVal (c :: rest))
      some (if core.1 then -v else v)
    else none

/-- `safe_int` from the source: `None` stays `None`; `int(x)` with every
conversion failure (TypeError/ValueError) absorbed into `None`. -/
def safe_int : Json → Option Int
  | .null => none
  | .int n => some n
  | .bool b => some (if b then 1 else 0)
  | .str s => pyParseInt s
  | .arr _ => none
  | .obj _ => none

/-- `safe_str` from the source: `None` stays `None`; otherwise `str(x).strip()`,
with the empty result mapped to `None`. -/
def safe_str (x : Json) : Option String :=
  match x with
  | .null => none
  | _ =>
    let s := pyStrip (pyStr x)
    if s = "" then none else some s

/-- Python `d.get(k)` on a JSON object's field list: the first binding of the
key, or `None` when absent. -/
def dictGet (fields : List (String × Json)) (k : String) : Json :=
  match List.lookup k fields with
  | some v => v
  | none => Json.null

/-- Python `a or b` on optional strings (as returned by `safe_str`). -/
def pyOrStr (a b : Option String) : Option String :=
  match a with
  | some s => if s ≠ "" then some s else b
  | none => b

/-- Word characters of the hashtag pattern `[A-Za-z0-9_]`. -/
def isWordChar (c : Char) : Bool :=
  c.isAlpha || c.isDigit || c = '_'

/-- Fuel-indexed scan for `re.findall(r"#([A-Za-z0-9_]+)", text)`: each match
is a maximal run of word characters immediately following a `#`.  Called with
fuel = length of the character list, which each step strictly decreases by at
most the number of characters consumed, so the fuel never runs out. -/
def tagRunsFuel : Nat → List Char → List String
  | 0, _ => []
  | _ + 1, [] => []
  | fuel + 1, '#' :: rest =>
    let run := rest.takeWhile isWordChar
    if run.isEmpty then tagRunsFuel fuel rest
    else String.mk run :: tagRunsFuel fuel (rest.drop run.length)
  | fuel + 1, _ :: rest => tagRunsFuel fuel rest

/-- The order-preserving deduplication loop shared by `extract_hashtags` and
`read_seed_users`: keep the first element for each distinct `key`, tracking
seen keys in `seen`. -/
def dedupBy (key : String → String) : List String → List String → List String
  | [], _ => []
  | u :: rest, seen =>
    if key u ∈ seen then dedupBy key rest seen
    else u :: dedupBy key rest (key u :: seen)

/-- `extract_hashtags` from the source: falsy text gives `[]`; otherwise the
`#`-word-run matches, each lower-cased, deduplicated first-occurrence-wins. -/
def extract_hashtags (text : Option String) : List String :=
  match text with
  | none => []
  | some s =>
    if s = "" then []
    else dedupBy id ((tagRunsFuel s.data.length s.data).map pyLower) []

/-- The stable profile record built by `normalize_profile`. -/
structure NormalizedProfile where
  username : String
  profile_url : String
  uploader : Option String
  uploader_id : Option String
  channel : Option String
  channel_id : Option String
  description : Option String
  webpage_url : Option String
  extractor : Option String
  extractor_key : Option String
  deriving DecidableEq

/-- The stable per-video record built by `normalize_video_entry`. -/
structure NormalizedVideo where
  video_id : Option String
  url : Option String
  webpage_url : Option String
  title : Option String
  caption : Option String
  hashtags : List String
  timestamp : Option Int
  upload_date : Option String
  duration_sec : Option Int
  uploader : Option String
  uploader_id : Option String
  view_count : Option Int
  like_count : Option Int
  comment_count : Option Int
  repost_count : Option Int
  deriving DecidableEq

/-- The per-user record built by `normalize_user_payload` (`scraped_at` is the
ambient clock string, see header). -/
structure UserResult where
  scraped_at : String
  source : String
  requested_max_videos : Nat
  profile : NormalizedProfile
  videos : List NormalizedVideo
  deriving DecidableEq

/-- The per-user error record appended by `main` on a failed extraction. -/
structure ErrorRecord where
  username : String
  profile_url : String
  scraped_at : String
  error : String
  returncode : Int
  deriving DecidableEq

/-- The aggregate run artifact written by `main` at the end of a run. -/
structure RunArtifact where
  run_started_at : String
  run_finished_at : String
  seed_file : String
  requested_max_videos : Nat
  user_count_requested : Nat
  user_count_succeeded : Nat
  user_count_failed : Nat
  results : List UserResult
  errors : List ErrorRecord
  deriving DecidableEq

/-- `normalize_profile` from the source, over the payload dict's field list. -/
def normalize_profile (username : String) (raw : List (String × Json)) : NormalizedProfile :=
  { username := username
    profile_url := "https://www.tiktok.com/@" ++ username
    uploader := safe_str (dictGet raw "uploader")
    uploader_id := safe_str (dictGet raw "uploader_id")
    channel := safe_str (dictGet raw "channel")
    channel_id := safe_str (dictGet raw "channel_id")
    description := safe_str (dictGet raw "description")
    webpage_url := safe_str (pyOr (dictGet raw "webpage_url") (dictGet raw "original_url"))
    extractor := safe_str (dictGet raw "extractor")
    extractor_key := safe_str (dictGet raw "extractor_key") }

/-- `normalize_video_entry` from the source, over the entry dict's field list. -/
def normalize_video_entry (e : List (String × Json)) (fallback_username : String) : NormalizedVideo :=
  let title := safe_str (dictGet e "title")
  let description := safe_str (dictGet e "description")
  let caption := pyOrStr description title
  let uploader :=
    safe_str (pyOr (pyOr (dictGet e "uploader") (dictGet e "uploader_id"))
      (Json.str fallback_username))
  { video_id := safe_str (dictGet e "id")
    url := safe_str (pyOr (dictGet e "url") (dictGet e "webpage_url"))
    webpage_url := safe_str (dictGet e "webpage_url")
    title := title
    caption := caption
    hashtags := extract_hashtags caption
    timestamp := safe_int (dictGet e "timestamp")
    upload_date := safe_str (dictGet e "upload_date")
    duration_sec := safe_int (dictGet e "duration")
    uploader := uploader
    uploader_id := safe_str (dictGet e "uploader_id")
    view_count := safe_int (dictGet e "view_count")
    like_count := safe_int (dictGet e "like_count")
    comment_count := safe_int (dictGet e "comment_count")
    repost_count := safe_int (dictGet e "repost_count") }

/-- The value `raw.get("entries") or []` followed by the slice `[:max]` and
the `isinstance(e, dict)` filter sees, as a list of JSON values.  `none`
models a Python `TypeError` (slicing a truthy non-sequence).  A truthy string
slices to its one-character substrings, none of which is a dict. -/
def entriesSeq (v : Json) : Option (List Json) :=
  if jTruthy v then
    match v with
    | .arr l => some l
    | .str s => some (s.data.map (fun c => Json.str (String.mk [c])))
    | _ => none
  else some []

/-- `normalize_user_payload` from the source.  `none` models an uncaught
Python exception: `raw.get` on a non-dict payload, or slicing a truthy
non-sequence `entries` value. -/
def normalize_user_payload (now username : String) (raw : Json) (max_videos : Nat) :
    Option UserResult :=
  match raw with
  | .obj fields =>
    match entriesSeq (dictGet fields "entries") with
    | none => none
    | some entries =>
      let videos := (entries.take max_videos).filterMap fun e =>
        match e with
        | .obj ef => some (normalize_video_entry ef username)
        | _ => none
      some { scraped_at := now
             source := "yt-dlp"
             requested_max_videos := max_videos
             profile := normalize_profile username fields
             videos := videos }
  | _ => none

/-- Python `str.splitlines()` on the `\n` / `\r\n` / `\r` line endings
(accumulator holds the current line reversed). -/
def splitlinesAux : List Char → List Char → List (List Char)
  | [], [] => []
  | [], acc => [acc.reverse]
  | '\r' :: '\n' :: rest, acc => acc.reverse :: splitlinesAux rest []
  | '\n' :: rest, acc => acc.reverse :: splitlinesAux rest []
  | '\r' :: rest, acc => acc.reverse :: splitlinesAux rest []
  | c :: rest, acc => splitlinesAux rest (c :: acc)

/-- Python `str.splitlines()`. -/
def pySplitlines (s : String) : List String :=
  (splitlinesAux s.data []).map String.mk

/-- The character class of the seed loader's sanity check `[A-Za-z0-9._]+`. -/
def isSeedIdentChar (c : Char) : Bool :=
  c.isAlpha || c.isDigit || c = '.' || c = '_'

/-- `re.fullmatch(r"[A-Za-z0-9._]+", u) is not None`. -/
def seedIdentOk (u : String) : Bool :=
  !u.data.isEmpty && u.data.all isSeedIdentChar

/-- Does a line start with the comment marker? (`u.startswith("#")`). -/
def startsWithHash (u : String) : Bool :=
  match u.data with
  | '#' :: _ => true
  | _ => false

/-- `read_seed_users` from the source, over the seed file's text: split into
lines, strip, skip blank and comment lines, strip leading `@`s, retain the
identifier whether or not it passes the sanity check (both branches of the
source append), then deduplicate case-insensitively, first occurrence wins. -/
def read_seed_users (content : String) : List String :=
  let users := (pySplitlines content).filterMap fun line =>
    let u := pyStrip line
    if u = "" || startsWithHash u then none
    else
      let u2 := String.mk (u.data.dropWhile (fun c => c = '@'))
      if seedIdentOk u2 then some u2 else some u2
  dedupBy pyLower users []

/-- How one `subprocess.run` invocation of the extraction tool ended: the
timeout fired, the binary was missing, another exception was raised, or the
process completed with an exit code, a stdout that either parses as JSON
(`some` the parsed tree) or does not (`none`), and a stderr text. -/
inductive ProcResult where
  | timeout : ProcResult
  | toolMissing : ProcResult
  | otherExc : String → ProcResult
  | completed : Int → Option Json → String → ProcResult

/-- The `YtDlpResult` dataclass from the source. -/
structure YtDlpResult where
  raw : Option Json
  error : Option String
  returncode : Int
  stderr : String

/-- The last `n` characters of a string (`s[-n:]`). -/
def takeRightStr (n : Nat) (s : String) : String :=
  String.mk (s.data.drop (s.data.length - n))

/-- `run_ytdlp_json` from the source, as a function of how the subprocess
invocation ended (command construction and the subprocess itself are the
external oracle, see header). -/
def run_ytdlp_json (pr : ProcResult) : YtDlpResult :=
  match pr with
  | .timeout =>
    { raw := none, error := some "timeout", returncode := 124, stderr := "" }
  | .toolMissing =>
    { raw := none, error := some "yt-dlp not found. Install with: pip install yt-dlp",
      returncode := 127, stderr := "" }
  | .otherExc msg =>
    { raw := none, error := some ("exception: " ++ msg), returncode := 1, stderr := "" }
  | .completed rc stdoutJson stderrRaw =>
    let stderr := pyStrip stderrRaw
    if rc ≠ 0 then
      let short_err := if stderr.length > 2000 then takeRightStr 2000 stderr else stderr
      { raw := none, error := some (if short_err ≠ "" then short_err else "yt-dlp failed"),
        returncode := rc, stderr := stderr }
    else
      match stdoutJson with
      | some raw => { raw := some raw, error := none, returncode := 0, stderr := stderr }
      | none =>
        { raw := none, error := some "failed to parse yt-dlp JSON output",
          returncode := 2, stderr := stderr }

/-- The profile URL `main` builds for a username. -/
def profileUrlOf (u : String) : String :=
  "https://www.tiktok.com/@" ++ u

/-- The orchestrator's branch condition `if y.error or not y.raw`. -/
def isErrResult (y : YtDlpResult) : Bool :=
  (match y.error with
   | some s => s != ""
   | none => false) ||
  (match y.raw with
   | some j => !jTruthy j
   | none => true)

/-- Truth of `isErrResult` for the invocation a given username triggers. -/
def isErrUser (env : String → ProcResult) (u : String) : Bool :=
  isErrResult (run_ytdlp_json (env (profileUrlOf u)))

/-- The error record `main` appends on a failed extraction
(`y.error or "unknown error"`). -/
def mkErrorRecord (now u purl : String) (y : YtDlpResult) : ErrorRecord :=
  { username := u
    profile_url := purl
    scraped_at := now
    error := match y.error with
      | some s => if s ≠ "" then s else "unknown error"
      | none => "unknown error"
    returncode := y.returncode }

/-- The orchestrator's per-identifier loop from `main`: invoke the tool
(via the oracle `env`, indexed by the profile URL), append an error record or
a normalized result, break on fail-fast after an error.  `none` models an
uncaught Python exception inside `normalize_user_payload` aborting the run. -/
def mainLoop (env : String → ProcResult) (now : String) (maxVideos : Nat) (failFast : Bool) :
    List String → Option (List UserResult × List ErrorRecord)
  | [] => some ([], [])
  | u :: rest =>
    let purl := profileUrlOf u
    let y := run_ytdlp_json (env purl)
    if isErrResult y then
      let er := mkErrorRecord now u purl y
      if failFast then some ([], [er])
      else
        match mainLoop env now maxVideos failFast rest with
        | some (rs, es) => some (rs, er :: es)
        | none => none
    else
      match y.raw with
      | some raw =>
        match normalize_user_payload now u raw maxVideos with
        | some r =>
          match mainLoop env now maxVideos failFast rest with
          | some (rs, es) => some (r :: rs, es)
          | none => none
        | none => none
      | none => none

/-- `main` from the source: read the seed users; on an empty list print and
return exit code 0 without writing anything; otherwise run the loop and, when
it completes, write the run artifact and return 0.  The result is the process
exit code paired with the artifact written (`none` when no artifact file is
produced: the zero-user early return, or an uncaught normalization error). -/
def mainRun (env : String → ProcResult) (now : String) (maxVideos : Nat) (failFast : Bool)
    (seedPath seedContent : String) : Int × Option RunArtifact :=
  let users := read_seed_users seedContent
  let total := users.length
  if total = 0 then (0, none)
  else
    match mainLoop env now maxVideos failFast users with
    | none => (1, none)
    | some (rs, es) =>
      (0, some { run_started_at := now
                 run_finished_at := now
                 seed_file := seedPath
                 requested_max_videos := maxVideos
                 user_count_requested := total
                 user_count_succeeded := rs.length
                 user_count_failed := es.length
                 results := rs
                 errors := es })

theorem mem_seen_of_mem_dedupBy {key : String → String} :
    ∀ {l seen : List String} {u : String}, u ∈ dedupBy key l seen → key u ∉ seen := by
  intro l
  induction l with
  | nil => intro seen u h; simp [dedupBy] at h
  | cons a rest ih =>
    intro seen u h
    by_cases hk : key a ∈ seen
    · rw [dedupBy, if_pos hk] at h
      exact ih h
    · rw [dedupBy, if_neg hk] at h
      rcases List.mem_cons.mp h with h | h
      · simpa [h] using hk
      · have := ih h
        intro hc
        exact this (List.mem_cons_of_mem _ hc)

theorem dedupBy_pairwise (key : String → String) :
    ∀ (l seen : List String), (dedupBy key l seen).Pairwise (fun a b => key a ≠ key b) := by
  intro l
  induction l with
  | nil => intro seen; simp [dedupBy]
  | cons a rest ih =>
    intro seen
    by_cases hk : key a ∈ seen
    · rw [dedupBy, if_pos hk]
      exact ih seen
    · rw [dedupBy, if_neg hk]
      refine List.Pairwise.cons ?_ (ih _)
      intro b hb hab
      have := mem_seen_of_mem_dedupBy hb
      exact this (by simp [hab])

theorem mem_of_mem_dedupBy {key : String → String} :
    ∀ {l seen : List String} {u : String}, u ∈ dedupBy key l seen → u ∈ l := by
  intro l
  induction l with
  | nil => intro seen u h; simp [dedupBy] at h
  | cons a rest ih =>
    intro seen u h
    by_cases hk : key a ∈ seen
    · rw [dedupBy, if_pos hk] at h
      exact List.mem_cons_of_mem _ (ih h)
    · rw [dedupBy, if_neg hk] at h
      rcases List.mem_cons.mp h with h | h
      · simp [h]
      · exact List.mem_cons_of_mem _ (ih h)

/-- C5: the Seed Loader skips blank and `#` lines, trims whitespace, strips
leading `@` markers (all of them), retains identifiers failing the character
class, and deduplicates case-insensitively keeping the first occurrence; the
claim's example loads to `["alice", "bob"]`.  This is the claim amended to
"strips all leading `@` markers" in place of "one leading `@` marker". -/
theorem c5_seed_loader_behavior :
    read_seed_users "alice\n#comment\n\n@bob\nalice" = ["alice", "bob"] ∧
    read_seed_users "@@bob" = ["bob"] ∧
    read_seed_users "  alice  \nbob!x" = ["alice", "bob!x"] ∧
    read_seed_users "Alice\nalice\nBOB" = ["Alice", "BOB"] ∧
    ∀ content : String,
      (read_seed_users content).Pairwise (fun a b => pyLower a ≠ pyLower b) := by
  refine ⟨by decide, by decide, by decide, by decide, ?_⟩
  intro content
  exact dedupBy_pairwise pyLower _ []

/-- C5 counterexample: the claim says one leading `@` marker is stripped, so
the line `@@bob` would load as `@bob`; the code strips every leading `@` and
loads it as `bob`. -/
theorem c5_lstrip_all_at_cex :
    read_seed_users "@@bob" ≠ ["@bob"] ∧ read_seed_users "@@bob" = ["bob"] := by
  exact ⟨by decide, by decide⟩

/-- C6: hashtag extraction returns the `#`-prefixed word runs of the caption,
lower-cased, deduplicated first-occurrence-wins; empty or absent caption gives
`[]`; the claim's example gives `["travel", "nyc"]`. -/
theorem c6_hashtag_extraction :
    extract_hashtags none = [] ∧
    extract_hashtags (some "") = [] ∧
    extract_hashtags (some "Fun day #Travel #travel #NYC") = ["travel", "nyc"] ∧
    (∀ s : String, (extract_hashtags (some s)).Nodup) ∧
    (∀ (s : String) (t : String),
      t ∈ extract_hashtags (some s) → ∃ r : String, t = pyLower r) ∧
    extract_hashtags (some "#A #a #A_b") = ["a", "a_b"] := by
  refine ⟨rfl, rfl, by decide, ?_, ?_, by decide⟩
  · intro s
    unfold extract_hashtags
    by_cases hs : s = ""
    · simp [hs]
    · simp only [hs, if_false]
      have := dedupBy_pairwise id ((tagRunsFuel s.data.length s.data).map pyLower) []
      simpa [List.Nodup] using this
  · intro s t ht
    unfold extract_hashtags at ht
    by_cases hs : s = ""
    · simp [hs] at ht
    · simp only [hs, if_false] at ht
      have := mem_of_mem_dedupBy ht
      rcases List.mem_map.mp this with ⟨r, _, hr⟩
      exact ⟨r, hr.symm⟩

/-- C6 witness: the tag extracted from `x #Tag` is a lower-cased word run. -/
theorem c6_hashtag_extraction_witness :
    "tag" ∈ extract_hashtags (some "x #Tag") ∧ ∃ r : String, "tag" = pyLower r :=
  ⟨by decide, c6_hashtag_extraction.2.2.2.2.1 "x #Tag" "tag" (by decide)⟩

theorem safe_str_eq_of_ne_null (x : Json) (hx : x ≠ Json.null) :
    safe_str x = if pyStrip (pyStr x) = "" then none else some (pyStrip (pyStr x)) := by
  cases x
  · exact absurd rfl hx
  all_goals rfl

theorem safe_str_ne_empty (x : Json) (s : String) (h : safe_str x = some s) : s ≠ "" := by
  by_cases hx : x = Json.null
  · rw [hx] at h
    simp [safe_str] at h
  · rw [safe_str_eq_of_ne_null x hx] at h
    split at h
    · simp at h
    · rename_i hne
      obtain rfl := Option.some.inj h
      exact hne

/-- C9: the coercion helpers are total and defensive: the string coercion
maps `None` and values stringifying to whitespace to `null` and otherwise
yields the stringified, trimmed value; the integer coercion yields `null` on
every conversion failure; an entry with no `view_count` key normalizes to a
`null` view count. -/
theorem c9_safe_coercions :
    (∀ (e : List (String × Json)) (u : String),
      List.lookup "view_count" e = none → (normalize_video_entry e u).view_count = none) ∧
    safe_str Json.null = none ∧
    (∀ x : Json, pyStrip (pyStr x) = "" → safe_str x = none) ∧
    (∀ x : Json, x ≠ Json.null → pyStrip (pyStr x) ≠ "" →
      safe_str x = some (pyStrip (pyStr x))) ∧
    safe_int (Json.str "not-a-number") = none ∧
    safe_int Json.null = none ∧
    safe_int (Json.arr [Json.int 3]) = none := by
  refine ⟨?_, rfl, ?_, ?_, by decide, rfl, rfl⟩
  · intro e u h
    simp [normalize_video_entry, dictGet, h, safe_int]
  · intro x h
    by_cases hx : x = Json.null
    · rw [hx]; rfl
    · rw [safe_str_eq_of_ne_null x hx, if_pos h]
  · intro x hx h
    rw [safe_str_eq_of_ne_null x hx, if_neg h]

/-- C9 witness: a video entry without a `view_count` key has a `null`
view count. -/
theorem c9_safe_coercions_witness :
    List.lookup "view_count" ([("id", Json.str "v1")] : List (String × Json)) = none ∧
    (normalize_video_entry [("id", Json.str "v1")] "u").view_count = none :=
  ⟨rfl, c9_safe_coercions.1 [("id", Json.str "v1")] "u" rfl⟩

/-- C8: the caption is the entry's trimmed description when that is non-empty
and its trimmed title otherwise; the uploader falls back from the entry's
`uploader` value to its `uploader_id` value to the run's identifier, by
Python truthiness, before coercion. -/
theorem c8_caption_uploader_fallback :
    (∀ (e : List (String × Json)) (u d : String),
      safe_str (dictGet e "description") = some d →
        (normalize_video_entry e u).caption = some d) ∧
    (∀ (e : List (String × Json)) (u : String),
      safe_str (dictGet e "description") = none →
        (normalize_video_entry e u).caption = safe_str (dictGet e "title")) ∧
    (normalize_video_entry [("title", Json.str "T"), ("description", Json.str "")] "u").caption
      = some "T" ∧
    (normalize_video_entry [("title", Json.str "T"), ("description", Json.str "D")] "u").caption
      = some "D" ∧
    (∀ (e : List (String × Json)) (u : String),
      jTruthy (dictGet e "uploader") = true →
        (normalize_video_entry e u).uploader = safe_str (dictGet e "uploader")) ∧
    (∀ (e : List (String × Json)) (u : String),
      jTruthy (dictGet e "uploader") = false → jTruthy (dictGet e "uploader_id") = true →
        (normalize_video_entry e u).uploader = safe_str (dictGet e "uploader_id")) ∧
    (∀ (e : List (String × Json)) (u : String),
      jTruthy (dictGet e "uploader") = false → jTruthy (dictGet e "uploader_id") = false →
        (normalize_video_entry e u).uploader = safe_str (Json.str u)) := by
  refine ⟨?_, ?_, by decide, by decide, ?_, ?_, ?_⟩
  · intro e u d h
    have hd := safe_str_ne_empty _ _ h
    simp [normalize_video_entry, pyOrStr, h, hd]
  · intro e u h
    simp [normalize_video_entry, pyOrStr, h]
  · intro e u h
    simp [normalize_video_entry, pyOr, h]
  · intro e u h h'
    simp [normalize_video_entry, pyOr, h, h']
  · intro e u h h'
    simp [normalize_video_entry, pyOr, h, h']

/-- C8 witness: with a truthy `uploader` field the uploader comes from it,
and with an empty description the caption comes from the title. -/
theorem c8_caption_uploader_fallback_witness :
    jTruthy (dictGet [("uploader", Json.str "carol")] "uploader") = true ∧
    (normalize_video_entry [("uploader", Json.str "carol")] "u").uploader
      = safe_str (dictGet [("uploader", Json.str "carol")] "uploader") ∧
    safe_str (dictGet ([("title", Json.str "T")] : List (String × Json)) "description") = none ∧
    (normalize_video_entry [("title", Json.str "T")] "u").caption
      = safe_str (dictGet [("title", Json.str "T")] "title") :=
  ⟨rfl, c8_caption_uploader_fallback.2.2.2.2.1 [("uploader", Json.str "carol")] "u" rfl,
    rfl, c8_caption_uploader_fallback.2.1 [("title", Json.str "T")] "u" rfl⟩

/-- C10: profile normalization is total on payload objects: the username is
the run's identifier and the profile URL is that identifier appended to the
fixed prefix (both non-null by construction); the webpage URL comes from the
payload's `webpage_url` value, falling back to `original_url` when
`webpage_url` is missing or the empty string. -/
theorem c10_profile_normalization :
    ∀ (u : String) (raw : List (String × Json)),
      (normalize_profile u raw).username = u ∧
      (normalize_profile u raw).profile_url = "https://www.tiktok.com/@" ++ u ∧
      ((dictGet raw "webpage_url" = Json.null ∨ dictGet raw "webpage_url" = Json.str "") →
        (normalize_profile u raw).webpage_url = safe_str (dictGet raw "original_url")) ∧
      (∀ s : String, s ≠ "" → dictGet raw "webpage_url" = Json.str s →
        (normalize_profile u raw).webpage_url = safe_str (Json.str s)) := by
  intro u raw
  refine ⟨rfl, rfl, ?_, ?_⟩
  · intro h
    rcases h with h | h <;> simp [normalize_profile, pyOr, h, jTruthy]
  · intro s hs h
    simp [normalize_profile, pyOr, h, jTruthy, hs]

/-- C10 witness: an empty-string `webpage_url` falls back to `original_url`,
and the username and profile URL fields are as specified. -/
theorem c10_profile_normalization_witness :
    (normalize_profile "alice" [("webpage_url", Json.str ""), ("original_url", Json.str "http://x")]).username = "alice" ∧
    (normalize_profile "alice" [("webpage_url", Json.str ""), ("original_url", Json.str "http://x")]).webpage_url
      = safe_str (dictGet [("webpage_url", Json.str ""), ("original_url", Json.str "http://x")] "original_url") :=
  ⟨(c10_profile_normalization "alice" _).1,
    (c10_profile_normalization "alice"
      [("webpage_url", Json.str ""), ("original_url", Json.str "http://x")]).2.2.1 (Or.inr rfl)⟩

theorem takeRightStr_eq_self (n : Nat) (s : String) (h : s.length ≤ n) :
    takeRightStr n s = s := by
  cases s with
  | mk data =>
    unfold takeRightStr
    have h' : data.length - n = 0 := Nat.sub_eq_zero_of_le h
    rw [h']
    rw [List.drop_zero]

theorem takeRightStr_ne_empty (n : Nat) (hn : 0 < n) (s : String) (hs : s ≠ "") :
    takeRightStr n s ≠ "" := by
  cases s with
  | mk data =>
    have hne : data ≠ [] := by
      intro hd
      apply hs
      rw [hd]
    have hpos : 0 < data.length := List.length_pos.mpr hne
    unfold takeRightStr
    intro hc
    have hd : data.drop (data.length - n) = [] := String.ext_iff.mp hc
    have hlen : data.length ≤ data.length - n := List.drop_eq_nil_iff.mp hd
    omega

/-- C3: failure classification of the Extraction Invoker, amended on the
non-zero-exit case: the reason is the last 2000 characters of the trimmed
stderr when that is non-empty, and the fixed message `yt-dlp failed` when the
trimmed stderr is empty (the claim said the stderr tail unconditionally);
timeouts give `timeout`/124, a missing binary names the tool with 127, other
invocation exceptions embed the exception text with code 1, unparsable stdout
on exit 0 gives the parse-failure message with code 2, and exit 0 with
parseable stdout is a success carrying the parsed payload unchanged. -/
theorem c3_failure_classification :
    (run_ytdlp_json ProcResult.timeout).error = some "timeout" ∧
    (run_ytdlp_json ProcResult.timeout).returncode = 124 ∧
    (run_ytdlp_json ProcResult.toolMissing).error
      = some "yt-dlp not found. Install with: pip install yt-dlp" ∧
    (run_ytdlp_json ProcResult.toolMissing).returncode = 127 ∧
    (∀ msg : String,
      (run_ytdlp_json (ProcResult.otherExc msg)).error = some ("exception: " ++ msg) ∧
      (run_ytdlp_json (ProcResult.otherExc msg)).returncode = 1) ∧
    (∀ (rc : Int) (stdoutJson : Option Json) (st : String), rc ≠ 0 →
      (run_ytdlp_json (ProcResult.completed rc stdoutJson st)).returncode = rc ∧
      (run_ytdlp_json (ProcResult.completed rc stdoutJson st)).raw = none ∧
      (pyStrip st ≠ "" →
        (run_ytdlp_json (ProcResult.completed rc stdoutJson st)).error
          = some (takeRightStr 2000 (pyStrip st))) ∧
      (pyStrip st = "" →
        (run_ytdlp_json (ProcResult.completed rc stdoutJson st)).error
          = some "yt-dlp failed")) ∧
    (∀ (j : Json) (st : String),
      (run_ytdlp_json (ProcResult.completed 0 (some j) st)).raw = some j ∧
      (run_ytdlp_json (ProcResult.completed 0 (some j) st)).error = none ∧
      (run_ytdlp_json (ProcResult.completed 0 (some j) st)).returncode = 0) ∧
    (∀ st : String,
      (run_ytdlp_json (ProcResult.completed 0 none st)).raw = none ∧
      (run_ytdlp_json (ProcResult.completed 0 none st)).error
        = some "failed to parse yt-dlp JSON output" ∧
      (run_ytdlp_json (ProcResult.completed 0 none st)).returncode = 2) := by
  refine ⟨rfl, rfl, rfl, rfl, fun msg => ⟨rfl, rfl⟩, ?_, ?_, ?_⟩
  · intro rc stdoutJson st hrc
    refine ⟨by simp [run_ytdlp_json, hrc], by simp [run_ytdlp_json, hrc], ?_, ?_⟩
    · intro hne
      by_cases hl : (pyStrip st).length > 2000
      · have hne' : takeRightStr 2000 (pyStrip st) ≠ "" :=
          takeRightStr_ne_empty 2000 (by omega) _ hne
        simp [run_ytdlp_json, hrc, hl, hne']
      · have hle : (pyStrip st).length ≤ 2000 := by omega
        simp [run_ytdlp_json, hrc, hl, takeRightStr_eq_self 2000 (pyStrip st) hle, hne]
    · intro he
      simp [run_ytdlp_json, hrc, he]
  · intro j st
    simp [run_ytdlp_json]
  · intro st
    simp [run_ytdlp_json]

/-- C3 witness: a non-zero exit with non-empty stderr reports the stderr tail
and the tool's exit code. -/
theorem c3_failure_classification_witness :
    ((7 : Int) ≠ 0) ∧
    (run_ytdlp_json (ProcResult.completed 7 none "boom")).returncode = 7 ∧
    (run_ytdlp_json (ProcResult.completed 7 none "boom")).error
      = some (takeRightStr 2000 (pyStrip "boom")) :=
  ⟨by decide,
    (c3_failure_classification.2.2.2.2.2.1 7 none "boom" (by decide)).1,
    (c3_failure_classification.2.2.2.2.2.1 7 none "boom" (by decide)).2.2.1 (by decide)⟩

/-- C3 counterexample: a non-zero exit whose stderr is empty reports the fixed
message `yt-dlp failed`, not the (empty) last-2000-characters tail of stderr
that the claim prescribes. -/
theorem c3_empty_stderr_reason_cex :
    (run_ytdlp_json (ProcResult.completed 5 none "")).error = some "yt-dlp failed" ∧
    (run_ytdlp_json (ProcResult.completed 5 none "")).returncode = 5 ∧
    takeRightStr 2000 (pyStrip "") = "" ∧
    (run_ytdlp_json (ProcResult.completed 5 none "")).error
      ≠ some (takeRightStr 2000 (pyStrip "")) := by
  refine ⟨by decide, by decide, by decide, by decide⟩

/-- C4: a run whose seed list loads to zero identifiers exits successfully
(code 0) without invoking the extraction tool, but — amending the claim —
writes no run artifact at all: the orchestrator returns before the artifact
is constructed or persisted. -/
theorem c4_zero_users_short_circuit :
    ∀ (env : String → ProcResult) (now : String) (maxVideos : Nat) (failFast : Bool)
      (seedPath seedContent : String),
      read_seed_users seedContent = [] →
      mainRun env now maxVideos failFast seedPath seedContent = (0, none) := by
  intro env now maxV ff sp sc h
  simp [mainRun, h]

/-- C4 witness: a seed file holding only a comment line loads to zero users
and the run exits 0 with no artifact, independent of the oracle. -/
theorem c4_zero_users_short_circuit_witness :
    read_seed_users "#only-a-comment\n" = [] ∧
    mainRun (fun _ => ProcResult.toolMissing) "t" 5 true "s.txt" "#only-a-comment\n"
      = (0, none) :=
  ⟨by decide,
    c4_zero_users_short_circuit (fun _ => ProcResult.toolMissing) "t" 5 true "s.txt"
      "#only-a-comment\n" (by decide)⟩

/-- C4 counterexample: on an empty seed file the run exits 0 but produces no
artifact, contradicting the claim that an empty RunArtifact is persisted. -/
theorem c4_zero_users_no_artifact_cex :
    read_seed_users "" = [] ∧
    (mainRun (fun _ => ProcResult.timeout) "t" 20 false "seeds.txt" "").1 = 0 ∧
    (mainRun (fun _ => ProcResult.timeout) "t" 20 false "seeds.txt" "").2 = none := by
  refine ⟨rfl, rfl, rfl⟩

/-- C7: the normalized video list is the payload's entry list truncated to the
first `max_videos` entries with non-object entries dropped, so its length
never exceeds the requested maximum; the concrete payload shows truncation
before the object filter and preservation of upstream order. -/
theorem c7_videos_truncation :
    (∀ (now u : String) (raw : Json) (maxVideos : Nat) (res : UserResult),
      normalize_user_payload now u raw maxVideos = some res →
      res.videos.length ≤ maxVideos) ∧
    normalize_user_payload "t" "u"
      (Json.obj [("entries", Json.arr [Json.obj [("id", Json.str "a")], Json.str "junk",
        Json.obj [("id", Json.str "b")], Json.int 7])]) 3
      = some { scraped_at := "t", source := "yt-dlp", requested_max_videos := 3,
               profile := normalize_profile "u"
                 [("entries", Json.arr [Json.obj [("id", Json.str "a")], Json.str "junk",
                   Json.obj [("id", Json.str "b")], Json.int 7])],
               videos := [normalize_video_entry [("id", Json.str "a")] "u",
                          normalize_video_entry [("id", Json.str "b")] "u"] } := by
  refine ⟨?_, rfl⟩
  intro now u raw maxV res h
  cases raw with
  | obj fields =>
    cases hE : entriesSeq (dictGet fields "entries") with
    | none => simp [normalize_user_payload, hE] at h
    | some entries =>
      simp only [normalize_user_payload, hE, Option.some.injEq] at h
      subst h
      exact Nat.le_trans (List.length_filterMap_le _ _) (List.length_take_le _ _)
  | null => simp [normalize_user_payload] at h
  | bool b => simp [normalize_user_payload] at h
  | int n => simp [normalize_user_payload] at h
  | str s => simp [normalize_user_payload] at h
  | arr l => simp [normalize_user_payload] at h

/-- C7 witness: a payload with 25 raw entries and `max_videos = 20` yields
exactly 20 videos. -/
theorem c7_videos_truncation_witness :
    normalize_user_payload "t" "u"
        (Json.obj [("entries", Json.arr (List.replicate 25 (Json.obj [])))]) 20
      = some { scraped_at := "t", source := "yt-dlp", requested_max_videos := 20,
               profile := normalize_profile "u"
                 [("entries", Json.arr (List.replicate 25 (Json.obj [])))],
               videos := List.replicate 20 (normalize_video_entry [] "u") } ∧
    (List.replicate 20 (normalize_video_entry [] "u")).length = 20 ∧
    ({ scraped_at := "t", source := "yt-dlp", requested_max_videos := 20,
       profile := normalize_profile "u"
         [("entries", Json.arr (List.replicate 25 (Json.obj [])))],
       videos := List.replicate 20 (normalize_video_entry [] "u") } : UserResult).videos.length
      ≤ 20 :=
  ⟨by rfl, by simp,
    c7_videos_truncation.1 "t" "u"
      (Json.obj [("entries", Json.arr (List.replicate 25 (Json.obj [])))]) 20 _ (by rfl)⟩

theorem normalize_user_payload_username (now u : String) (raw : Json) (maxVideos : Nat)
    (res : UserResult) (h : normalize_user_payload now u raw maxVideos = some res) :
    res.profile.username = u := by
  cases raw with
  | obj fields =>
    cases hE : entriesSeq (dictGet fields "entries") with
    | none => simp [normalize_user_payload, hE] at h
    | some entries =>
      simp only [normalize_user_payload, hE, Option.some.injEq] at h
      subst h
      rfl
  | null => simp [normalize_user_payload] at h
  | bool b => simp [normalize_user_payload] at h
  | int n => simp [normalize_user_payload] at h
  | str s => simp [normalize_user_payload] at h
  | arr l => simp [normalize_user_payload] at h

theorem length_filter_add_length_filter_not {α : Type} (l : List α) (p : α → Bool) :
    (l.filter p).length + (l.filter (fun a => !(p a))).length = l.length := by
  induction l with
  | nil => rfl
  | cons a rest ih =>
    cases hpa : p a <;> simp [List.filter_cons, hpa] <;> omega

theorem mainLoop_filter (env : String → ProcResult) (now : String) (maxVideos : Nat)
    (failFast : Bool) :
    ∀ (l : List String) (rs : List UserResult) (es : List ErrorRecord),
      mainLoop env now maxVideos failFast l = some (rs, es) →
      ∃ k, k ≤ l.length ∧
        rs.map (fun r => r.profile.username)
          = (l.take k).filter (fun u => !(isErrUser env u)) ∧
        es.map (fun e => e.username) = (l.take k).filter (fun u => isErrUser env u) ∧
        (failFast = false → k = l.length) := by
  intro l
  induction l with
  | nil =>
    intro rs es h
    simp only [mainLoop, Option.some.injEq, Prod.mk.injEq] at h
    obtain ⟨h1, h2⟩ := h
    exact ⟨0, by simp, by simp [← h1], by simp [← h2], fun _ => rfl⟩
  | cons u rest ih =>
    intro rs es h
    simp only [mainLoop] at h
    cases hErr : isErrUser env u with
    | true =>
      have hErr' : isErrResult (run_ytdlp_json (env (profileUrlOf u))) = true := hErr
      rw [if_pos hErr'] at h
      by_cases hff0 : failFast = true
      · rw [if_pos hff0] at h
        injection h with hpair
        injection hpair with h1 h2
        refine ⟨1, by simp, ?_, ?_, ?_⟩
        · rw [← h1]
          simp [hErr]
        · rw [← h2]
          simp [hErr, mkErrorRecord]
        · intro hc
          rw [hc] at hff0
          cases hff0
      · rw [if_neg hff0] at h
        cases hM : mainLoop env now maxVideos failFast rest with
        | none => rw [hM] at h; cases h
        | some pr =>
          obtain ⟨rs', es'⟩ := pr
          rw [hM] at h
          injection h with hpair
          injection hpair with h1 h2
          obtain ⟨k, hk, hrs, hes, hff⟩ := ih rs' es' hM
          refine ⟨k + 1, by simpa using hk, ?_, ?_, fun hc => by simp [hff hc]⟩
          · rw [← h1, hrs]
            simp [List.take_succ_cons, List.filter_cons, hErr]
          · rw [← h2]
            simp only [List.map_cons, hes]
            simp [List.take_succ_cons, List.filter_cons, hErr, mkErrorRecord]
    | false =>
      have hErr' : ¬(isErrResult (run_ytdlp_json (env (profileUrlOf u))) = true) := by
        intro hc
        rw [show isErrResult (run_ytdlp_json (env (profileUrlOf u))) = isErrUser env u from rfl,
          hErr] at hc
        cases hc
      rw [if_neg hErr'] at h
      cases hR : (run_ytdlp_json (env (profileUrlOf u))).raw with
      | none => rw [hR] at h; cases h
      | some raw =>
        rw [hR] at h
        dsimp only at h
        cases hN : normalize_user_payload now u raw maxVideos with
        | none => rw [hN] at h; cases h
        | some r =>
          rw [hN] at h
          cases hM : mainLoop env now maxVideos failFast rest with
          | none => rw [hM] at h; cases h
          | some pr =>
            obtain ⟨rs', es'⟩ := pr
            rw [hM] at h
            injection h with hpair
            injection hpair with h1 h2
            obtain ⟨k, hk, hrs, hes, hff⟩ := ih rs' es' hM
            refine ⟨k + 1, by simpa using hk, ?_, ?_, fun hc => by simp [hff hc]⟩
            · rw [← h1]
              simp only [List.map_cons, hrs]
              simp [List.take_succ_cons, List.filter_cons, hErr,
                normalize_user_payload_username now u raw maxVideos r hN]
            · rw [← h2, hes]
              simp [List.take_succ_cons, List.filter_cons, hErr]

/-- C1 (amended): whenever the orchestrator's loop completes, the usernames
in `results` are exactly the processed identifiers whose invocation succeeded
with a truthy payload and the usernames in `errors` are exactly the processed
identifiers whose invocation failed or returned a falsy payload — so each
processed identifier is appended to exactly one of the two sequences and no
identifier appears in both; the processed identifiers are a prefix of the
seed list, the whole list when fail-fast is disabled.  (The original claim's
"a UserResult whenever the invoker returns Success" is amended to except
Success outcomes carrying a falsy payload, which are recorded as errors.) -/
theorem c1_results_errors_partition :
    ∀ (env : String → ProcResult) (now : String) (maxVideos : Nat) (failFast : Bool)
      (users : List String) (rs : List UserResult) (es : List ErrorRecord),
      mainLoop env now maxVideos failFast users = some (rs, es) →
      (∀ u : String,
        ¬(u ∈ rs.map (fun r => r.profile.username) ∧ u ∈ es.map (fun e => e.username))) ∧
      ∃ k, k ≤ users.length ∧
        rs.map (fun r => r.profile.username)
          = (users.take k).filter (fun u => !(isErrUser env u)) ∧
        es.map (fun e => e.username) = (users.take k).filter (fun u => isErrUser env u) ∧
        (failFast = false → k = users.length) := by
  intro env now maxV ff users rs es h
  obtain ⟨k, hk, hrs, hes, hff⟩ := mainLoop_filter env now maxV ff users rs es h
  refine ⟨?_, k, hk, hrs, hes, hff⟩
  rintro u ⟨h1, h2⟩
  rw [hrs] at h1
  rw [hes] at h2
  have b1 := (List.mem_filter.mp h1).2
  have b2 := (List.mem_filter.mp h2).2
  rw [b2] at b1
  cases b1

/-- C1 witness: in a one-user run whose invocation times out, the user is not
in both sequences (it is recorded only in `errors`). -/
theorem c1_results_errors_partition_witness :
    ¬("alice" ∈ ([] : List UserResult).map (fun r => r.profile.username) ∧
      "alice" ∈ [mkErrorRecord "t" "alice" (profileUrlOf "alice")
          (run_ytdlp_json ProcResult.timeout)].map (fun e => e.username)) :=
  (c1_results_errors_partition (fun _ => ProcResult.timeout) "t" 20 false ["alice"] []
    [mkErrorRecord "t" "alice" (profileUrlOf "alice") (run_ytdlp_json ProcResult.timeout)]
    (by decide)).1 "alice"

/-- C1 counterexample: the invoker returns Success (`error = none`) for a
payload parsing to the empty JSON object, yet the orchestrator appends an
ErrorRecord (reason `unknown error`) and no UserResult for that identifier,
because the success payload is falsy. -/
theorem c1_success_empty_payload_error_cex :
    (run_ytdlp_json (ProcResult.completed 0 (some (Json.obj [])) "")).error = none ∧
    (run_ytdlp_json (ProcResult.completed 0 (some (Json.obj [])) "")).returncode = 0 ∧
    mainLoop (fun _ => ProcResult.completed 0 (some (Json.obj [])) "") "t" 20 false ["alice"]
      = some ([], [{ username := "alice", profile_url := "https://www.tiktok.com/@alice",
                     scraped_at := "t", error := "unknown error", returncode := 0 }]) := by
  refine ⟨rfl, rfl, by decide⟩

/-- C2: every run artifact records `user_count_succeeded = |results|` and
`user_count_failed = |errors|`, their sum never exceeds
`user_count_requested`, and equals it whenever fail-fast is disabled. -/
theorem c2_artifact_counts :
    ∀ (env : String → ProcResult) (now : String) (maxVideos : Nat) (failFast : Bool)
      (seedPath seedContent : String) (art : RunArtifact),
      (mainRun env now maxVideos failFast seedPath seedContent).2 = some art →
      art.user_count_succeeded = art.results.length ∧
      art.user_count_failed = art.errors.length ∧
      art.user_count_succeeded + art.user_count_failed ≤ art.user_count_requested ∧
      (failFast = false →
        art.user_count_succeeded + art.user_count_failed = art.user_count_requested) := by
  intro env now maxV ff sp sc art h
  by_cases h0 : (read_seed_users sc).length = 0
  · simp [mainRun, h0] at h
  · cases hM : mainLoop env now maxV ff (read_seed_users sc) with
    | none => simp [mainRun, h0, hM] at h
    | some pr =>
      obtain ⟨rs, es⟩ := pr
      simp only [mainRun] at h
      rw [if_neg h0, hM] at h
      simp only [Option.some.injEq] at h
      obtain ⟨k, hk, hrs, hes, hff⟩ := mainLoop_filter env now maxV ff (read_seed_users sc) rs es hM
      have hrsl : rs.length
          = (((read_seed_users sc).take k).filter (fun u => !(isErrUser env u))).length := by
        have := congrArg List.length hrs
        simpa using this
      have hesl : es.length
          = (((read_seed_users sc).take k).filter (fun u => isErrUser env u)).length := by
        have := congrArg List.length hes
        simpa using this
      have htk : ((read_seed_users sc).take k).length = k := by
        rw [List.length_take]
        omega
      have hsum : rs.length + es.length = k := by
        have hadd := length_filter_add_length_filter_not
          ((read_seed_users sc).take k) (fun u => isErrUser env u)
        omega
      subst h
      refine ⟨rfl, rfl, ?_, ?_⟩
      · show rs.length + es.length ≤ (read_seed_users sc).length
        omega
      · intro hc
        show rs.length + es.length = (read_seed_users sc).length
        have := hff hc
        omega

/-- C2 witness: a one-user run with fail-fast disabled whose invocation times
out has `succeeded + failed = requested`. -/
theorem c2_artifact_counts_witness :
    ({ run_started_at := "t", run_finished_at := "t", seed_file := "s.txt",
       requested_max_videos := 20, user_count_requested := 1, user_count_succeeded := 0,
       user_count_failed := 1, results := [],
       errors := [mkErrorRecord "t" "alice" (profileUrlOf "alice")
         (run_ytdlp_json ProcResult.timeout)] } : RunArtifact).user_count_succeeded +
      ({ run_started_at := "t", run_finished_at := "t", seed_file := "s.txt",
         requested_max_videos := 20, user_count_requested := 1, user_count_succeeded := 0,
         user_count_failed := 1, results := [],
         errors := [mkErrorRecord "t" "alice" (profileUrlOf "alice")
           (run_ytdlp_json ProcResult.timeout)] } : RunArtifact).user_count_failed
      = ({ run_started_at := "t", run_finished_at := "t", seed_file := "s.txt",
           requested_max_videos := 20, user_count_requested := 1, user_count_succeeded := 0,
           user_count_failed := 1, results := [],
           errors := [mkErrorRecord "t" "alice" (profileUrlOf "alice")
             (run_ytdlp_json ProcResult.timeout)] } : RunArtifact).user_count_requested :=
  (c2_artifact_counts (fun _ => ProcResult.timeout) "t" 20 false "s.txt" "alice" _
    (by decide)).2.2.2 rfl
